import Mathlib

/-!
Shallow embedding of the `rust-mqtt` client core (src/qos.rs, src/packet.rs,
src/main.rs) and proofs about it.

Modelling conventions:
* `u8`/`u16`/`usize` values are `Nat`; where the source truncates (`as u16`)
  the model keeps the truncation explicit.
* Rust `String`s are modelled as their UTF-8 byte lists (`List Nat`); the
  codec only ever moves the raw bytes.
* Fallible code (panics: `unimplemented!`, `unreachable!`, failed `assert!`,
  out-of-bounds indexing, `Option::unwrap` on `None`, `usize` underflow)
  is modelled with `Option`, `none` standing for the abort.
* The ad-hoc thread-local RNG draws (`rand::thread_rng`) are modelled as
  explicit input parameters of the constructors that perform them.
-/

namespace RustMqtt

/-- The three-valued QoS enumeration of src/qos.rs. -/
inductive QoS
  | QoS0
  | QoS1
  | QoS2
deriving DecidableEq, Repr

/-- The `as u8` cast of the `QoS` enum: the declared discriminants 0, 1, 2. -/
def qosToU8 : QoS → Nat
  | QoS.QoS0 => 0
  | QoS.QoS1 => 1
  | QoS.QoS2 => 2

/-- `impl From<u8> for QoS` (src/qos.rs lines 8-17); the `unreachable!()` arm
for any value other than 0, 1, 2 is the abort, modelled as `none`. -/
def qosFromU8 : Nat → Option QoS
  | 0 => some QoS.QoS0
  | 1 => some QoS.QoS1
  | 2 => some QoS.QoS2
  | _ => none

/-- `u16::to_be_bytes`: big-endian byte pair of a 16-bit value.  The `% 256`
projections also make the `as u16` truncations of the source exact for any
`Nat` argument. -/
def u16be (n : Nat) : List Nat := [n / 256 % 256, n % 256]

/-- `u16::from_be_bytes [a, b]`. -/
def u16from (a b : Nat) : Nat := a * 256 + b

/-- Rust slice-and-copy `buf[a..b].to_vec()`: `none` when the range is out of
bounds (a panic in the source). -/
def sliceOpt (l : List Nat) (a b : Nat) : Option (List Nat) :=
  if a ≤ b ∧ b ≤ l.length then some ((l.drop a).take (b - a)) else none

/-- The byte stream produced by the encoding loop of `insert_remaining_length`
(src/packet.rs lines 694-704): base-128 digits, low digit first, the high bit
of a byte marking a continuation. -/
def encRL (n : Nat) : List Nat :=
  if h : n / 128 = 0 then [n % 128]
  else (n % 128 + 128) :: encRL (n / 128)
decreasing_by
  exact Nat.div_lt_self (by omega) (by omega)

/-- `insert_remaining_length` (src/packet.rs lines 688-707): computes the body
length (everything after the fixed-header byte), panics (`none`) above the
268435455 ceiling, and splices the encoded length right after byte 0. -/
def insert_remaining_length (bytes : List Nat) : Option (List Nat) :=
  match bytes with
  | [] => none
  | hdr :: body =>
      if body.length > 268435455 then none
      else some (hdr :: (encRL body.length ++ body))

/-- The accumulation loop of `extract_remaining_length` (src/packet.rs lines
716-723), reading continuation-flagged bytes with a growing multiplier;
returns the decoded value and the number of length bytes consumed, `none`
when the loop runs off the end of the buffer (an index panic in the source). -/
def decodeRLAux : List Nat → Nat → Option (Nat × Nat)
  | [], _ => none
  | b :: rest, mult =>
      if b &&& 0x80 = 0 then some ((b &&& 0x7f) * mult, 1)
      else
        match decodeRLAux rest (mult * 128) with
        | some (len, k) => some ((b &&& 0x7f) * mult + len, k + 1)
        | none => none

/-- `extract_remaining_length` (src/packet.rs lines 709-726): decodes the
remaining length starting at offset 1 and returns it with the index of the
first byte after the length field. -/
def extract_remaining_length (bytes : List Nat) : Option (Nat × Nat) :=
  match bytes with
  | [] => none
  | _ :: rest =>
      match decodeRLAux rest 1 with
      | some (len, k) => some (len, 1 + k)
      | none => none

theorem and128_of_lt (b : Nat) (h : b < 128) : b &&& 128 = 0 := by
  have h7 := Nat.and_two_pow b 7
  norm_num at h7
  rw [h7, Nat.testBit_lt_two_pow (by norm_num; omega)]
  simp

theorem and128_of_cont (r : Nat) (h : r < 128) : (r + 128) &&& 128 = 128 := by
  have h7 := Nat.and_two_pow (r + 128) 7
  norm_num at h7
  have ht : (r + 128).testBit 7 = true := by
    rw [Nat.testBit_to_div_mod]
    have h1 : (r + 128) / 2 ^ 7 = 1 := by
      have h2 : (2 : Nat) ^ 7 = 128 := by norm_num
      rw [h2]
      omega
    rw [h1]
    decide
  rw [h7, ht]
  simp

theorem and127_eq_mod (b : Nat) : b &&& 127 = b % 128 := by
  have h7 := Nat.and_pow_two_sub_one_eq_mod b 7
  norm_num at h7
  exact h7

theorem encRL_eq_small (n : Nat) (h : n / 128 = 0) : encRL n = [n % 128] := by
  rw [encRL]
  simp [h]

theorem encRL_eq_big (n : Nat) (h : ¬n / 128 = 0) :
    encRL n = (n % 128 + 128) :: encRL (n / 128) := by
  rw [encRL]
  simp [h]

theorem decodeRLAux_cons_last (b : Nat) (tail : List Nat) (mult : Nat)
    (hb : b &&& 128 = 0) :
    decodeRLAux (b :: tail) mult = some ((b &&& 127) * mult, 1) := by
  simp [decodeRLAux, hb]

theorem decodeRLAux_cons_cont (b : Nat) (tail : List Nat) (mult len k : Nat)
    (hb : ¬b &&& 128 = 0) (htail : decodeRLAux tail (mult * 128) = some (len, k)) :
    decodeRLAux (b :: tail) mult = some ((b &&& 127) * mult + len, k + 1) := by
  simp [decodeRLAux, hb, htail]

/-- Decoding the encoded remaining length recovers the value, scaled by the
running multiplier, regardless of what follows it in the buffer. -/
theorem decodeRLAux_encRL (n : Nat) : ∀ (rest : List Nat) (mult : Nat),
    decodeRLAux (encRL n ++ rest) mult = some (n * mult, (encRL n).length) := by
  induction n using Nat.strong_induction_on with
  | _ n ih =>
    intro rest mult
    by_cases h : n / 128 = 0
    · have hn : n < 128 := by omega
      have hmod : n % 128 = n := Nat.mod_eq_of_lt hn
      rw [encRL_eq_small n h, List.singleton_append,
        decodeRLAux_cons_last _ _ _ (by rw [hmod]; exact and128_of_lt n hn)]
      rw [and127_eq_mod]
      simp [hmod]
    · have hrec := ih (n / 128) (Nat.div_lt_self (by omega) (by omega)) rest (mult * 128)
      have hmlt : n % 128 < 128 := Nat.mod_lt _ (by omega)
      have hcont : ¬(n % 128 + 128) &&& 128 = 0 := by
        rw [and128_of_cont _ hmlt]
        norm_num
      have hdata : (n % 128 + 128) &&& 127 = n % 128 := by
        rw [and127_eq_mod]
        omega
      rw [encRL_eq_big n h, List.cons_append,
        decodeRLAux_cons_cont _ _ _ _ _ hcont hrec, hdata]
      have hval : n % 128 * mult + n / 128 * (mult * 128) = n * mult := by
        calc n % 128 * mult + n / 128 * (mult * 128)
            = (128 * (n / 128) + n % 128) * mult := by ring
          _ = n * mult := by rw [Nat.div_add_mod]
      rw [hval]
      simp

/-- Values below `128 ^ (k + 1)` encode in at most `k + 1` bytes. -/
theorem encRL_length_le (k : Nat) : ∀ n, n < 128 ^ (k + 1) → (encRL n).length ≤ k + 1 := by
  induction k with
  | zero =>
    intro n hn
    have h0 : n / 128 = 0 := by
      have : n < 128 := by norm_num at hn; omega
      omega
    rw [encRL]
    simp [h0]
  | succ k ih =>
    intro n hn
    rw [encRL]
    by_cases h : n / 128 = 0
    · simp [h]
    · have hdiv : n / 128 < 128 ^ (k + 1) := by
        rw [Nat.div_lt_iff_lt_mul (by omega : 0 < 128)]
        calc n < 128 ^ (k + 1 + 1) := hn
          _ = 128 ^ (k + 1) * 128 := by rw [pow_succ]
      have := ih (n / 128) hdiv
      simp [h]
      omega

/-- `ConnectPacket` (src/packet.rs lines 119-131); strings as UTF-8 bytes. -/
structure ConnectPacket where
  client_id : List Nat
  username : Option (List Nat)
  password : Option (List Nat)
  qos : QoS
  will_retain : Bool
  will_flag : Bool
  clean_session : Bool
  keep_alive : Nat
  will_topic : Option (List Nat)
  will_message : Option (List Nat)
deriving DecidableEq, Repr

/-- `ConnectPacket::new` (src/packet.rs lines 134-169).  `genClientId` stands
for the random `mqttclient<u16>` string drawn when no client id is supplied;
the two `panic!` validations are `none`. -/
def ConnectPacket.new (genClientId : List Nat)
    (username password client_id : Option (List Nat)) (keep_alive : Nat)
    (clean_session will_flag : Bool)
    (will_topic will_message : Option (List Nat)) : Option ConnectPacket :=
  let cid := client_id.getD genClientId
  if username = none ∧ password ≠ none then none
  else if will_flag ∧ (will_topic = none ∨ will_message = none) then none
  else some (ConnectPacket.mk cid username password QoS.QoS0 false will_flag
    clean_session keep_alive will_topic will_message)

/-- The control-flag byte of `ConnectPacket::serialize` (src/packet.rs lines
185-190). -/
def ConnectPacket.control_flag (p : ConnectPacket) : Nat :=
  (p.username.isSome.toNat <<< 7) ||| (p.password.isSome.toNat <<< 6) |||
  (p.will_retain.toNat <<< 5) ||| (qosToU8 p.qos <<< 3) |||
  (p.will_flag.toNat <<< 2) ||| (p.clean_session.toNat <<< 1)

/-- A 2-byte big-endian length prefix followed by the bytes, the layout used
for every UTF-8 string field. -/
def lenPrefixedField (s : List Nat) : List Nat := u16be s.length ++ s

/-- Everything `ConnectPacket::serialize` (src/packet.rs lines 173-228) pushes
after the fixed-header byte and before the remaining length is spliced in. -/
def ConnectPacket.body (p : ConnectPacket) : List Nat :=
  [0, 4] ++ [0x4d, 0x51, 0x54, 0x54] ++ [4] ++ [p.control_flag] ++
  u16be p.keep_alive ++ lenPrefixedField p.client_id ++
  (if p.will_flag then
    (match p.will_topic with
     | some t => lenPrefixedField t
     | none => []) ++
    (match p.will_message with
     | some m => lenPrefixedField m
     | none => [])
   else []) ++
  (match p.username with
   | some u =>
       lenPrefixedField u ++
       (match p.password with
        | some pw => lenPrefixedField pw
        | none => [])
   | none => [])

/-- `ConnectPacket::serialize`: fixed-header byte `0b00010000`, body, then
the remaining length spliced in after byte 0. -/
def ConnectPacket.serialize (p : ConnectPacket) : Option (List Nat) :=
  insert_remaining_length (0b00010000 :: p.body)

/-- `PublishPacket` (src/packet.rs lines 276-284). -/
structure PublishPacket where
  dup : Bool
  qos : QoS
  retain : Bool
  topic_name : List Nat
  packet_id : Option Nat
  payload : List Nat
deriving DecidableEq, Repr

/-- `PublishPacket::new` (src/packet.rs lines 286-309); `gen` stands for the
random u16 drawn by `generate_packet_id()` when QoS 1/2 and no id supplied. -/
def PublishPacket.new (gen : Nat) (dup : Bool) (qos : QoS) (retain : Bool)
    (topic_name : List Nat) (packet_id : Option Nat) (payload : List Nat) :
    PublishPacket :=
  let pid :=
    if qos = QoS.QoS2 ∨ qos = QoS.QoS1 then
      match packet_id with
      | none => some gen
      | some x => some x
    else packet_id
  PublishPacket.mk dup qos retain topic_name pid payload

/-- The fixed-header byte of `PublishPacket::serialize` (src/packet.rs lines
317-322). -/
def PublishPacket.fixedHeaderByte (p : PublishPacket) : Nat :=
  0b00110000 ||| (p.dup.toNat <<< 3) ||| (qosToU8 p.qos <<< 1) ||| p.retain.toNat

/-- The bytes `PublishPacket::serialize` (src/packet.rs lines 313-337) pushes
after the fixed-header byte: length-prefixed topic (length cast `as u16`),
the packet id when present, then the raw payload. -/
def PublishPacket.body (p : PublishPacket) : List Nat :=
  u16be p.topic_name.length ++ p.topic_name ++
  (match p.packet_id with
   | some pid => u16be pid
   | none => []) ++ p.payload

/-- `PublishPacket::serialize`. -/
def PublishPacket.serialize (p : PublishPacket) : Option (List Nat) :=
  insert_remaining_length (p.fixedHeaderByte :: p.body)

/-- `PublishPacket::deserialize` (src/packet.rs lines 339-373), byte for byte,
including its index arithmetic: the packet-id read happens after `i` was
already advanced by 2, and the payload span is `remaining_length - (2 +
topic_name_length)` with no allowance for the id field.  Out-of-bounds reads,
the `assert!`, a bad QoS pattern and `usize` underflow are `none`. -/
def PublishPacket.deserialize (buf : List Nat) : Option (PublishPacket × Nat) := do
  let b0 ← buf[0]?
  if b0 &&& 0b11110000 = 0b00110000 then
    let dup := b0 &&& 0b00001000 == 0b00001000
    let qos ← qosFromU8 ((b0 &&& 0b00000110) >>> 1)
    let retain := b0 &&& 0b00000001 == 0b00000001
    let rl ← extract_remaining_length buf
    let remaining_length := rl.1
    let fixed_header_length := rl.2
    let tl1 ← buf[fixed_header_length]?
    let tl2 ← buf[fixed_header_length + 1]?
    let topic_name_length := u16from tl1 tl2
    let topic_name ← sliceOpt buf (fixed_header_length + 2)
      (fixed_header_length + 2 + topic_name_length)
    let i1 := fixed_header_length + 2 + topic_name_length
    let step ←
      if qos ≠ QoS.QoS0 then
        match buf[i1 + 2]?, buf[i1 + 3]? with
        | some a, some b => some (some (u16from a b), i1 + 2)
        | _, _ => none
      else some (none, i1)
    if remaining_length < 2 + topic_name_length then none
    else do
      let payload ← sliceOpt buf step.2
        (step.2 + (remaining_length - (2 + topic_name_length)))
      pure (PublishPacket.mk dup qos retain topic_name step.1 payload,
        fixed_header_length + remaining_length)
  else none

/-- `PubackPacket` (src/packet.rs lines 376-405). -/
structure PubackPacket where
  packet_id : Nat
deriving DecidableEq, Repr

def PubackPacket.serialize (p : PubackPacket) : List Nat :=
  0b01000000 :: 0b00000010 :: u16be p.packet_id

def PubackPacket.deserialize (buf : List Nat) : Option (PubackPacket × Nat) :=
  match buf with
  | b0 :: b1 :: b2 :: b3 :: _ =>
      if b0 = 0b01000000 ∧ b1 = 0b00000010 then
        some (PubackPacket.mk (u16from b2 b3), 4)
      else none
  | _ => none

/-- `PubrecPacket` (src/packet.rs lines 407-434). -/
structure PubrecPacket where
  packet_id : Nat
deriving DecidableEq, Repr

def PubrecPacket.serialize (p : PubrecPacket) : List Nat :=
  0b01010000 :: 2 :: u16be p.packet_id

def PubrecPacket.deserialize (buf : List Nat) : Option (PubrecPacket × Nat) :=
  match buf with
  | b0 :: b1 :: b2 :: b3 :: _ =>
      if b0 = 0b01010000 ∧ b1 = 2 then
        some (PubrecPacket.mk (u16from b2 b3), 4)
      else none
  | _ => none

/-- `PubrelPacket` (src/packet.rs lines 436-463); note the serialized header
byte `0b01100010` with the reserved flag pattern. -/
structure PubrelPacket where
  packet_id : Nat
deriving DecidableEq, Repr

def PubrelPacket.serialize (p : PubrelPacket) : List Nat :=
  0b01100010 :: 2 :: u16be p.packet_id

def PubrelPacket.deserialize (buf : List Nat) : Option (PubrelPacket × Nat) :=
  match buf with
  | b0 :: b1 :: b2 :: b3 :: _ =>
      if b0 = 0b01100010 ∧ b1 = 2 then
        some (PubrelPacket.mk (u16from b2 b3), 4)
      else none
  | _ => none

/-- `PubcompPacket` (src/packet.rs lines 465-492). -/
structure PubcompPacket where
  packet_id : Nat
deriving DecidableEq, Repr

def PubcompPacket.serialize (p : PubcompPacket) : List Nat :=
  0b01110000 :: 2 :: u16be p.packet_id

def PubcompPacket.deserialize (buf : List Nat) : Option (PubcompPacket × Nat) :=
  match buf with
  | b0 :: b1 :: b2 :: b3 :: _ =>
      if b0 = 0b01110000 ∧ b1 = 2 then
        some (PubcompPacket.mk (u16from b2 b3), 4)
      else none
  | _ => none

/-- `ConnackPacket` (src/packet.rs lines 235-240); the `&'static str` refusal
reason is modelled by the return code (1-5) it is derived from. -/
structure ConnackPacket where
  sp : Bool
  accepted : Bool
  refused_reason : Option Nat
deriving DecidableEq, Repr

/-- `SubscribePacket` (src/packet.rs lines 494-498). -/
structure SubscribePacket where
  packet_id : Nat
  topic_filters : List (List Nat × QoS)
deriving DecidableEq, Repr

/-- `SubackPacket` (src/packet.rs lines 527-532). -/
structure SubackPacket where
  packet_id : Nat
  maximum_qos : Option QoS
  failure : Bool
deriving DecidableEq, Repr

/-- `UnsubscribePacket` (src/packet.rs lines 564-568). -/
structure UnsubscribePacket where
  packet_id : Nat
  topic_filters : List (List Nat)
deriving DecidableEq, Repr

/-- `UnsubackPacket` (src/packet.rs lines 599-602). -/
structure UnsubackPacket where
  packet_id : Nat
deriving DecidableEq, Repr

structure PingreqPacket where
deriving DecidableEq, Repr

structure PingrespPacket where
deriving DecidableEq, Repr

structure DisconnectPacket where
deriving DecidableEq, Repr

/-- The closed `PacketType` enum of src/packet.rs lines 15-31. -/
inductive PacketType
  | CONNECT (packet : ConnectPacket)
  | CONNACK (packet : ConnackPacket)
  | PUBLISH (packet : PublishPacket)
  | PUBACK (packet : PubackPacket)
  | PUBREC (packet : PubrecPacket)
  | PUBREL (packet : PubrelPacket)
  | PUBCOMP (packet : PubcompPacket)
  | SUBSCRIBE (packet : SubscribePacket)
  | SUBACK (packet : SubackPacket)
  | UNSUBSCRIBE (packet : UnsubscribePacket)
  | UNSUBACK (packet : UnsubackPacket)
  | PINGREQ (packet : PingreqPacket)
  | PINGRESP (packet : PingrespPacket)
  | DISCONNECT (packet : DisconnectPacket)
deriving DecidableEq, Repr

/-- `HashMap` lookup by packet id, modelled on an association list. -/
def tlookup {V : Type} (t : List (Nat × V)) (k : Nat) : Option V :=
  (t.find? (fun e => e.1 = k)).map (fun e => e.2)

/-- `HashMap::insert`: the new binding replaces any old one for the key. -/
def tinsert {V : Type} (t : List (Nat × V)) (k : Nat) (v : V) : List (Nat × V) :=
  (k, v) :: t.filter (fun e => e.1 ≠ k)

/-- `HashMap::remove`: the removed value (if any) and the remaining table. -/
def tremove {V : Type} (t : List (Nat × V)) (k : Nat) :
    Option V × List (Nat × V) :=
  (tlookup t k, t.filter (fun e => e.1 ≠ k))

/-- The reply computation of `create_replay_packet_with_received_packet`
(src/packet.rs lines 738-758) on an already-decoded packet: `some reply?`
when a branch exists, `none` for the `unimplemented!()` catch-all and for the
`packet_id.unwrap()` of a QoS 1/2 Publish without an id. -/
def create_replay_reaction : PacketType → Option (Option PacketType)
  | PacketType.PUBLISH p =>
      if p.qos = QoS.QoS1 then
        match p.packet_id with
        | some pid => some (some (PacketType.PUBACK (PubackPacket.mk pid)))
        | none => none
      else if p.qos = QoS.QoS2 then
        match p.packet_id with
        | some pid => some (some (PacketType.PUBREC (PubrecPacket.mk pid)))
        | none => none
      else some none
  | PacketType.PUBREL r =>
      some (some (PacketType.PUBCOMP (PubcompPacket.mk r.packet_id)))
  | PacketType.UNSUBACK _ => some none
  | PacketType.PINGRESP _ => some none
  | _ => none

/-- `consume_published_packet` (src/main.rs lines 43-46) hands the payload to
the out-of-scope application sink; the model records the delivered bytes. -/
def consume_published_packet (p : PublishPacket) : List Nat := p.payload

/-- The two in-flight tables the subscribe receive loop touches:
`unpubrel_packets` (awaiting-PUBREL, held QoS-2 publishes) and
`unpubcomp_packets` (awaiting-PUBCOMP, Pubrels replied to). -/
structure SubState where
  unpubrel : List (Nat × PublishPacket)
  unpubcomp : List (Nat × PubrelPacket)
deriving DecidableEq, Repr

/-- Observable outcome of one subscribe receive-loop iteration: the new
tables, the payloads delivered to the sink, the packet ids named in `warn!`
messages, the packets written to the transport, and whether the loop exits. -/
structure SubStepResult where
  state : SubState
  delivered : List (List Nat)
  warned : List Nat
  written : List PacketType
  exited : Bool
deriving DecidableEq, Repr

/-- The table-update if-chain of the subscribe receive loop (src/main.rs
lines 240-260): QoS-2 publishes are held (not delivered), other publishes are
delivered at once; a Pubrel removes the held publish (delivering it, or
warning when absent) and records itself in awaiting-PUBCOMP; a Pubcomp
removes from `unpubrel_packets`.  Returns the new tables, delivered payloads
and warned ids; `none` models the `unwrap()` panic. -/
def subLoopProcess (st : SubState) (received : PacketType) :
    Option (SubState × List (List Nat) × List Nat) :=
  match received with
  | PacketType.PUBLISH p =>
      if p.qos = QoS.QoS2 then
        match p.packet_id with
        | some pid =>
            some (SubState.mk (tinsert st.unpubrel pid p) st.unpubcomp, [], [])
        | none => none
      else some (st, [consume_published_packet p], [])
  | PacketType.PUBREL r =>
      let rem := tremove st.unpubrel r.packet_id
      let dw : List (List Nat) × List Nat :=
        match rem.1 with
        | some pp => ([consume_published_packet pp], [])
        | none => ([], [r.packet_id])
      some (SubState.mk rem.2 (tinsert st.unpubcomp r.packet_id r), dw.1, dw.2)
  | PacketType.PUBCOMP c =>
      some (SubState.mk (tremove st.unpubrel c.packet_id).2 st.unpubcomp, [], [])
  | _ => some (st, [], [])

/-- One iteration of the subscribe receive loop (src/main.rs lines 234-271)
on an already-decoded packet: the reply is computed first (the reaction step,
which can abort), the tables are updated, then the shared shutdown flag is
checked — on `true` the loop breaks before the reply write; otherwise the
reply, if any, is written. -/
def subLoopStep (st : SubState) (received : PacketType) (wait_for_exit : Bool) :
    Option SubStepResult :=
  match create_replay_reaction received with
  | none => none
  | some replied =>
      match subLoopProcess st received with
      | none => none
      | some (st2, delivered, warned) =>
          if wait_for_exit then
            some (SubStepResult.mk st2 delivered warned [] true)
          else
            match replied with
            | some rp => some (SubStepResult.mk st2 delivered warned [rp] false)
            | none => some (SubStepResult.mk st2 delivered warned [] false)

/-- The QoS-1 acknowledgment handling of the pub command (src/main.rs lines
146-149): the Puback's id is removed from `unpuback_packets`
(awaiting-PUBACK) with the `remove` result discarded; the second component
records the warn-level reports emitted — the source logs nothing above debug
level here. -/
def qos1_puback_step (unpuback : List (Nat × PublishPacket))
    (puback : PubackPacket) : List (Nat × PublishPacket) × List Nat :=
  ((tremove unpuback puback.packet_id).2, [])

/-- A representative QoS-1 Publish with packet id 1, topic "a", payload "h". -/
def pubQoS1Example : PublishPacket :=
  PublishPacket.mk false QoS.QoS1 false [0x61] (some 1) [0x68]

/-- A held QoS-2 Publish used as a concrete awaiting-PUBREL entry. -/
def pubHeld : PublishPacket :=
  PublishPacket.mk false QoS.QoS2 false [97] (some 1) [104]

/-- A subscribe-loop state holding `pubHeld` under id 1. -/
def st1 : SubState := SubState.mk [(1, pubHeld)] []

/-- The clean-session-only Connect of the repository's serialization test. -/
def connectCleanOnly : ConnectPacket :=
  ConnectPacket.mk [104, 101, 108, 108, 111] none none QoS.QoS0 false false
    true 60 none none

/-- The username+password+clean-session Connect of the repository's test. -/
def connectUserPassClean : ConnectPacket :=
  ConnectPacket.mk [104, 101, 108, 108, 111] (some [65, 65, 65])
    (some [66, 66, 66]) QoS.QoS0 false false true 60 none none

/-- The will-flag+clean-session Connect of the repository's test. -/
def connectWillClean : ConnectPacket :=
  ConnectPacket.mk [104, 101, 108, 108, 111] none none QoS.QoS0 false true
    true 60 (some [97, 47, 98]) (some [104, 101, 108, 108, 111])

theorem insert_remaining_length_small (hdr : Nat) (body : List Nat)
    (h : body.length < 128) :
    insert_remaining_length (hdr :: body) = some (hdr :: body.length :: body) := by
  show (if body.length > 268435455 then none
    else some (hdr :: (encRL body.length ++ body))) = _
  rw [if_neg (by omega), encRL_eq_small body.length (by omega),
    Nat.mod_eq_of_lt h]
  simp

theorem extract_remaining_length_cons (h : Nat) (rest : List Nat) (len k : Nat)
    (hd : decodeRLAux rest 1 = some (len, k)) :
    extract_remaining_length (h :: rest) = some (len, 1 + k) := by
  simp [extract_remaining_length, hd]

theorem tlookup_tinsert {V : Type} (t : List (Nat × V)) (k : Nat) (v : V) :
    tlookup (tinsert t k v) k = some v := by
  simp [tlookup, tinsert]

theorem tfilter_eq_of_absent {V : Type} (t : List (Nat × V)) (k : Nat)
    (h : tlookup t k = none) : t.filter (fun e => e.1 ≠ k) = t := by
  rw [List.filter_eq_self]
  intro e he
  unfold tlookup at h
  rw [Option.map_eq_none'] at h
  rw [List.find?_eq_none] at h
  have := h e he
  simpa using this

theorem control_flag_bits (a b c d e f : Nat) (ha : a ≤ 1) (hb : b ≤ 1)
    (hc : c ≤ 1) (hd : d ≤ 2) (he : e ≤ 1) (hf : f ≤ 1) :
    (a <<< 7) ||| (b <<< 6) ||| (c <<< 5) ||| (d <<< 3) ||| (e <<< 2) |||
      (f <<< 1) =
    a * 128 + b * 64 + c * 32 + d * 8 + e * 4 + f * 2 := by
  interval_cases a <;> interval_cases b <;> interval_cases c <;>
    interval_cases d <;> interval_cases e <;> interval_cases f <;> decide

theorem bits_and_56 (a b e f : Nat) (ha : a ≤ 1) (hb : b ≤ 1)
    (he : e ≤ 1) (hf : f ≤ 1) :
    (a * 128 + b * 64 + 0 * 32 + 0 * 8 + e * 4 + f * 2) &&& 56 = 0 := by
  interval_cases a <;> interval_cases b <;> interval_cases e <;>
    interval_cases f <;> decide

theorem qosToU8_le_two (q : QoS) : qosToU8 q ≤ 2 := by
  cases q <;> decide

/-- The Connect control-flag byte written as a sum of its bit fields. -/
theorem control_flag_layout (p : ConnectPacket) :
    p.control_flag =
      p.username.isSome.toNat * 128 + p.password.isSome.toNat * 64 +
      p.will_retain.toNat * 32 + qosToU8 p.qos * 8 +
      p.will_flag.toNat * 4 + p.clean_session.toNat * 2 := by
  unfold ConnectPacket.control_flag
  exact control_flag_bits _ _ _ _ _ _ (Bool.toNat_le _) (Bool.toNat_le _)
    (Bool.toNat_le _) (qosToU8_le_two p.qos) (Bool.toNat_le _)
    (Bool.toNat_le _)

/-- Closed form of one subscribe-loop iteration on an inbound Pubrel. -/
theorem subLoopStep_pubrel (st : SubState) (pid : Nat) (flag : Bool) :
    subLoopStep st (PacketType.PUBREL (PubrelPacket.mk pid)) flag =
      some (SubStepResult.mk
        (SubState.mk (tremove st.unpubrel pid).2
          (tinsert st.unpubcomp pid (PubrelPacket.mk pid)))
        (match tlookup st.unpubrel pid with
         | some pp => [consume_published_packet pp]
         | none => [])
        (match tlookup st.unpubrel pid with
         | some _ => []
         | none => [pid])
        (if flag then [] else [PacketType.PUBCOMP (PubcompPacket.mk pid)])
        flag) := by
  unfold subLoopStep create_replay_reaction subLoopProcess
  cases hl : tlookup st.unpubrel pid <;> cases flag <;>
    simp [tremove, hl]

/-- Closed form of one subscribe-loop iteration on an inbound QoS-2 Publish
carrying a packet id. -/
theorem subLoopStep_publish_qos2 (st : SubState) (p : PublishPacket)
    (pid : Nat) (flag : Bool) (hq : p.qos = QoS.QoS2)
    (hid : p.packet_id = some pid) :
    subLoopStep st (PacketType.PUBLISH p) flag =
      some (SubStepResult.mk
        (SubState.mk (tinsert st.unpubrel pid p) st.unpubcomp) [] []
        (if flag then [] else [PacketType.PUBREC (PubrecPacket.mk pid)])
        flag) := by
  unfold subLoopStep create_replay_reaction subLoopProcess
  cases flag <;> simp [hq, hid]

/-- A QoS-2 Publish without a packet id panics in the reaction step
(`packet_id.unwrap()`). -/
theorem subLoopStep_publish_qos2_noid (st : SubState) (p : PublishPacket)
    (flag : Bool) (hq : p.qos = QoS.QoS2) (hid : p.packet_id = none) :
    subLoopStep st (PacketType.PUBLISH p) flag = none := by
  unfold subLoopStep create_replay_reaction
  simp [hq, hid]

/-- Claim C7: converting a QoS value to its numeric wire encoding and back is
the identity on the three values, the encoding is exactly the enum ordinal (a
bijection on 0, 1, 2), and decoding the remaining 2-bit pattern 3 is an error
(the `unreachable!` abort), not a silent default or clamp. -/
theorem c7_qos_codec :
    (∀ q : QoS, qosFromU8 (qosToU8 q) = some q) ∧
    qosFromU8 0 = some QoS.QoS0 ∧ qosFromU8 1 = some QoS.QoS1 ∧
    qosFromU8 2 = some QoS.QoS2 ∧ qosFromU8 3 = none := by
  refine ⟨?_, rfl, rfl, rfl, rfl⟩
  intro q
  cases q <;> rfl

/-- Claim C4: for every body length L in [0, 268435455], inserting the
remaining-length field and extracting it again returns exactly L together
with the index of the first byte after the length field (1 plus the number of
length bytes), the encoded field occupies at most 4 bytes, and for L =
268435456 the encoding step fails rather than truncating. -/
theorem c4_remaining_length_codec (hdr : Nat) (body : List Nat) :
    (body.length ≤ 268435455 →
      insert_remaining_length (hdr :: body) =
        some (hdr :: (encRL body.length ++ body)) ∧
      extract_remaining_length (hdr :: (encRL body.length ++ body)) =
        some (body.length, 1 + (encRL body.length).length) ∧
      (encRL body.length).length ≤ 4) ∧
    (body.length = 268435456 → insert_remaining_length (hdr :: body) = none) := by
  constructor
  · intro hle
    refine ⟨?_, ?_, ?_⟩
    · show (if body.length > 268435455 then none
        else some (hdr :: (encRL body.length ++ body))) = _
      rw [if_neg (by omega)]
    · have hdec := decodeRLAux_encRL body.length body 1
      rw [extract_remaining_length_cons hdr _ _ _ hdec]
      simp
    · exact encRL_length_le 3 body.length (by norm_num; omega)
  · intro heq
    show (if body.length > 268435455 then none
      else some (hdr :: (encRL body.length ++ body))) = none
    rw [if_pos (by omega)]

/-- Concrete witness for C4: a 2-byte body round-trips through the
remaining-length codec, and a body of 268435456 bytes is rejected. -/
theorem c4_remaining_length_codec_witness :
    insert_remaining_length (9 :: [5, 6]) = some (9 :: (encRL 2 ++ [5, 6])) ∧
    extract_remaining_length (9 :: (encRL 2 ++ [5, 6])) =
      some (2, 1 + (encRL 2).length) ∧
    (encRL 2).length ≤ 4 ∧
    insert_remaining_length (7 :: List.replicate 268435456 0) = none := by
  have h1 := (c4_remaining_length_codec 9 [5, 6]).1 (by norm_num)
  have h2 := (c4_remaining_length_codec 7 (List.replicate 268435456 0)).2
    (by rw [List.length_replicate])
  exact ⟨h1.1, h1.2.1, h1.2.2, h2⟩

/-- Claim C2 (refuted, code bug): an inbound Pubcomp never reaches the
per-packet reaction step's happy path — `create_replay_packet_with_received_packet`
has no PUBCOMP arm and aborts at `unimplemented!()`, so a subscribe-loop
iteration that receives a Pubcomp aborts instead of removing the id from the
awaiting-PUBCOMP table. -/
theorem c2_pubcomp_reaction_unimplemented :
    create_replay_reaction (PacketType.PUBCOMP (PubcompPacket.mk 1)) = none ∧
    subLoopStep (SubState.mk [] []) (PacketType.PUBCOMP (PubcompPacket.mk 1))
      false = none :=
  ⟨rfl, rfl⟩

/-- Claim C1 (refuted, code bug): the Publish round-trip fails for QoS ≠ 0.
Serializing the representative QoS-1 Publish gives an 8-byte buffer, but
deserializing that exact buffer aborts: the decoder advances the index past
the packet-id field before reading it and sizes the payload without
subtracting the id field, indexing two bytes past the end of the packet. -/
theorem c1_publish_roundtrip_fails :
    PublishPacket.serialize pubQoS1Example =
      some [0x32, 6, 0, 1, 0x61, 0, 1, 0x68] ∧
    PublishPacket.deserialize [0x32, 6, 0, 1, 0x61, 0, 1, 0x68] = none := by
  constructor
  · show insert_remaining_length (0x32 :: [0, 1, 0x61, 0, 1, 0x68]) = _
    rw [insert_remaining_length_small 0x32 _ (by norm_num)]
    rfl
  · rfl

/-- Claim C3 (refuted): in an iteration that observes the shutdown flag set,
the Pubcomp reply mandated for the Pubrel just processed is NOT written — the
loop breaks before the write, even though the reaction step mandated the
reply. -/
theorem c3_shutdown_skips_reply_counterexample :
    create_replay_reaction (PacketType.PUBREL (PubrelPacket.mk 1)) =
      some (some (PacketType.PUBCOMP (PubcompPacket.mk 1))) ∧
    subLoopStep (SubState.mk [] []) (PacketType.PUBREL (PubrelPacket.mk 1))
      true =
      some (SubStepResult.mk (SubState.mk [] [(1, PubrelPacket.mk 1)]) [] [1]
        [] true) :=
  ⟨rfl, rfl⟩

/-- Claim C3 as amended: whenever the shutdown flag is observed set, the
iteration exits having written nothing to the transport — the mandated reply
for the packet just processed is skipped (only the table updates and the
payload delivery still happen). -/
theorem c3_shutdown_exits_without_reply (st : SubState) (pkt : PacketType)
    (r : SubStepResult) (h : subLoopStep st pkt true = some r) :
    r.exited = true ∧ r.written = [] := by
  unfold subLoopStep at h
  cases hc : create_replay_reaction pkt with
  | none =>
      rw [hc] at h
      exact absurd h (by simp)
  | some replied =>
      rw [hc] at h
      cases hp : subLoopProcess st pkt with
      | none =>
          rw [hp] at h
          exact absurd h (by simp)
      | some out =>
          rw [hp] at h
          obtain ⟨st2, d, w⟩ := out
          have h2 : SubStepResult.mk st2 d w [] true = r := by
            simpa using h
          rw [← h2]
          exact ⟨rfl, rfl⟩

/-- Concrete witness for the amended C3: the iteration that processes
Pubrel(2) with the flag set exits with an empty write list. -/
theorem c3_shutdown_exits_without_reply_witness :
    subLoopStep (SubState.mk [] []) (PacketType.PUBREL (PubrelPacket.mk 2))
      true =
      some (SubStepResult.mk (SubState.mk [] [(2, PubrelPacket.mk 2)]) [] [2]
        [] true) ∧
    (SubStepResult.mk (SubState.mk [] [(2, PubrelPacket.mk 2)]) [] [2] []
      true).exited = true ∧
    (SubStepResult.mk (SubState.mk [] [(2, PubrelPacket.mk 2)]) [] [2] []
      true).written = [] := by
  refine ⟨rfl, ?_⟩
  exact c3_shutdown_exits_without_reply (SubState.mk [] [])
    (PacketType.PUBREL (PubrelPacket.mk 2)) _ rfl

/-- Claim C5: an inbound Pubrel removes its id from awaiting-PUBREL; a held
payload is delivered exactly then (a QoS-2 Publish iteration delivers
nothing); an absent entry yields a held-message-missing warning and no crash;
the reaction mandates a Pubcomp with the same id (written when the shutdown
flag is clear); and the id is recorded in awaiting-PUBCOMP. -/
theorem c5_pubrel_processing (st : SubState) (pid : Nat) (flag : Bool)
    (r : SubStepResult)
    (h : subLoopStep st (PacketType.PUBREL (PubrelPacket.mk pid)) flag =
      some r) :
    r.state.unpubrel = (tremove st.unpubrel pid).2 ∧
    (∀ pp, tlookup st.unpubrel pid = some pp →
      r.delivered = [consume_published_packet pp] ∧ r.warned = []) ∧
    (tlookup st.unpubrel pid = none →
      r.delivered = [] ∧ r.warned = [pid]) ∧
    create_replay_reaction (PacketType.PUBREL (PubrelPacket.mk pid)) =
      some (some (PacketType.PUBCOMP (PubcompPacket.mk pid))) ∧
    (flag = false →
      r.written = [PacketType.PUBCOMP (PubcompPacket.mk pid)]) ∧
    tlookup r.state.unpubcomp pid = some (PubrelPacket.mk pid) ∧
    (∀ (st2 : SubState) (p : PublishPacket) (r2 : SubStepResult),
      p.qos = QoS.QoS2 →
      subLoopStep st2 (PacketType.PUBLISH p) flag = some r2 →
      r2.delivered = []) := by
  rw [subLoopStep_pubrel st pid flag] at h
  have h2 := Option.some.inj h
  rw [← h2]
  refine ⟨rfl, ?_, ?_, rfl, ?_, ?_, ?_⟩
  · intro pp hpp
    rw [hpp]
    exact ⟨rfl, rfl⟩
  · intro habs
    rw [habs]
    exact ⟨rfl, rfl⟩
  · intro hflag
    rw [hflag]
    rfl
  · exact tlookup_tinsert st.unpubcomp pid (PubrelPacket.mk pid)
  · intro st2 p r2 hq h3
    cases hid : p.packet_id with
    | none =>
        rw [subLoopStep_publish_qos2_noid st2 p flag hq hid] at h3
        exact absurd h3 (by simp)
    | some pid2 =>
        rw [subLoopStep_publish_qos2 st2 p pid2 flag hq hid] at h3
        have h4 := Option.some.inj h3
        rw [← h4]

/-- Concrete witness for C5: processing Pubrel(1) with the held publish
`pubHeld` stored under id 1 delivers its payload, warns nothing, writes
Pubcomp(1) and records id 1 in awaiting-PUBCOMP. -/
theorem c5_pubrel_processing_witness :
    (SubStepResult.mk (SubState.mk [] [(1, PubrelPacket.mk 1)]) [[104]] []
      [PacketType.PUBCOMP (PubcompPacket.mk 1)] false).delivered =
      [consume_published_packet pubHeld] ∧
    (SubStepResult.mk (SubState.mk [] [(1, PubrelPacket.mk 1)]) [[104]] []
      [PacketType.PUBCOMP (PubcompPacket.mk 1)] false).warned = [] :=
  (c5_pubrel_processing st1 1 false
    (SubStepResult.mk (SubState.mk [] [(1, PubrelPacket.mk 1)]) [[104]] []
      [PacketType.PUBCOMP (PubcompPacket.mk 1)] false) rfl).2.1 pubHeld rfl

/-- Claim C6 (refuted): a Puback whose id is absent from awaiting-PUBACK is
removed silently — the QoS-1 handling discards the `remove` result and emits
no report at all (empty report list), contradicting "reported rather than
silently ignored". -/
theorem c6_silent_puback_counterexample :
    (qos1_puback_step [] (PubackPacket.mk 5)).1 = [] ∧
    (qos1_puback_step [] (PubackPacket.mk 5)).2 = [] :=
  ⟨rfl, rfl⟩

/-- Claim C6 as amended: removing an absent id never crashes and leaves the
table unchanged; the Pubrel-absent case reports a warning naming the id, but
the Puback-absent case is silently ignored with no report. -/
theorem c6_absent_removal_no_crash (t : List (Nat × PublishPacket))
    (pb : PubackPacket) (st : SubState) (pid : Nat) (r : SubStepResult)
    (h1 : tlookup t pb.packet_id = none)
    (h2 : tlookup st.unpubrel pid = none)
    (h3 : subLoopStep st (PacketType.PUBREL (PubrelPacket.mk pid)) false =
      some r) :
    qos1_puback_step t pb = (t, []) ∧
    r.warned = [pid] ∧
    r.state.unpubrel = st.unpubrel ∧
    tlookup r.state.unpubcomp pid = some (PubrelPacket.mk pid) := by
  refine ⟨?_, ?_⟩
  · unfold qos1_puback_step tremove
    rw [tfilter_eq_of_absent t pb.packet_id h1]
  · rw [subLoopStep_pubrel st pid false] at h3
    have h4 := Option.some.inj h3
    rw [← h4, h2]
    refine ⟨rfl, ?_, ?_⟩
    · show (tremove st.unpubrel pid).2 = st.unpubrel
      unfold tremove
      exact tfilter_eq_of_absent st.unpubrel pid h2
    · exact tlookup_tinsert st.unpubcomp pid (PubrelPacket.mk pid)

/-- Concrete witness for the amended C6: removing id 5 from an empty
awaiting-PUBACK table and processing Pubrel(2) against an empty
awaiting-PUBREL table. -/
theorem c6_absent_removal_no_crash_witness :
    qos1_puback_step [] (PubackPacket.mk 6) = ([], []) ∧
    (SubStepResult.mk (SubState.mk [] [(2, PubrelPacket.mk 2)]) [] [2]
      [PacketType.PUBCOMP (PubcompPacket.mk 2)] false).warned = [2] := by
  have h := c6_absent_removal_no_crash [] (PubackPacket.mk 6)
    (SubState.mk [] []) 2
    (SubStepResult.mk (SubState.mk [] [(2, PubrelPacket.mk 2)]) [] [2]
      [PacketType.PUBCOMP (PubcompPacket.mk 2)] false) rfl rfl rfl
  exact ⟨h.1, h.2.1⟩

/-- Claim C8 (refuted): the Publish constructor keeps a caller-supplied
packet identifier even when the QoS is 0, and that identifier is then
encoded on the wire (the bytes 0, 7 in the serialization below), so a QoS-0
Publish can carry an identifier. -/
theorem c8_qos0_keeps_supplied_id_counterexample :
    (PublishPacket.new 99 false QoS.QoS0 false [97] (some 7) []).packet_id =
      some 7 ∧
    PublishPacket.serialize
      (PublishPacket.new 99 false QoS.QoS0 false [97] (some 7) []) =
      some [48, 5, 0, 1, 97, 0, 7] := by
  constructor
  · rfl
  · show insert_remaining_length (48 :: [0, 1, 97, 0, 7]) = _
    rw [insert_remaining_length_small 48 _ (by norm_num)]
    rfl

/-- Claim C8 as amended: a QoS-1/2 Publish built by the constructor always
carries a packet identifier (generated when none is supplied); a QoS-0
Publish carries none when none is supplied, but a supplied identifier is
retained even with QoS 0; and the serialized body contains the 2-byte id
field exactly when the identifier is present. -/
theorem c8_publish_id_presence (gen : Nat) (dup : Bool) (q : QoS)
    (retain : Bool) (topic : List Nat) (pid : Option Nat)
    (payload : List Nat) :
    (q ≠ QoS.QoS0 →
      (PublishPacket.new gen dup q retain topic pid payload).packet_id ≠
        none) ∧
    (q = QoS.QoS0 →
      (PublishPacket.new gen dup q retain topic pid payload).packet_id =
        pid) ∧
    (PublishPacket.new gen dup q retain topic pid payload).body.length =
      2 + topic.length +
      (match (PublishPacket.new gen dup q retain topic pid payload).packet_id
       with
       | some _ => 2
       | none => 0) + payload.length := by
  refine ⟨?_, ?_, ?_⟩
  · intro hq
    cases q <;> cases pid <;>
      simp [PublishPacket.new] <;> exact absurd rfl hq
  · intro hq
    rw [hq]
    cases pid <;> simp [PublishPacket.new]
  · cases q <;> cases pid <;>
      simp [PublishPacket.new, PublishPacket.body, u16be] <;> omega

/-- Concrete witness for the amended C8: with QoS 1 and no supplied id the
constructor generates one; with QoS 0 a supplied id is kept. -/
theorem c8_publish_id_presence_witness :
    (PublishPacket.new 9 false QoS.QoS1 false [97] none [5]).packet_id ≠
      none ∧
    (PublishPacket.new 9 false QoS.QoS0 false [97] (some 7) [5]).packet_id =
      some 7 :=
  ⟨(c8_publish_id_presence 9 false QoS.QoS1 false [97] none [5]).1
      (by decide),
    (c8_publish_id_presence 9 false QoS.QoS0 false [97] (some 7) [5]).2.1
      rfl⟩

/-- Claim C9: the Connect control-flag byte is bit-exact per the layout (bit
7 username, bit 6 password, bit 5 will-retain, bits 4-3 will QoS, bit 2 will
flag, bit 1 clean session, bit 0 reserved 0); it sits at offset 7 of the
serialize body, and the three reference configurations produce 0b00000010,
0b11000010 and 0b00000110 both in the flag computation and at byte 9 of the
full serialization. -/
theorem c9_connect_control_flag :
    (∀ p : ConnectPacket,
      p.control_flag =
        p.username.isSome.toNat * 128 + p.password.isSome.toNat * 64 +
        p.will_retain.toNat * 32 + qosToU8 p.qos * 8 +
        p.will_flag.toNat * 4 + p.clean_session.toNat * 2) ∧
    (∀ p : ConnectPacket, p.body[7]? = some p.control_flag) ∧
    connectCleanOnly.control_flag = 0b00000010 ∧
    connectUserPassClean.control_flag = 0b11000010 ∧
    connectWillClean.control_flag = 0b00000110 ∧
    Option.bind connectCleanOnly.serialize (fun l => l[9]?) =
      some 0b00000010 ∧
    Option.bind connectUserPassClean.serialize (fun l => l[9]?) =
      some 0b11000010 ∧
    Option.bind connectWillClean.serialize (fun l => l[9]?) =
      some 0b00000110 := by
  refine ⟨?_, ?_, rfl, rfl, rfl, ?_, ?_, ?_⟩
  · intro p
    exact control_flag_layout p
  · intro p
    rfl
  · show Option.bind (insert_remaining_length
      (0b00010000 :: connectCleanOnly.body)) (fun l => l[9]?) = _
    rw [show connectCleanOnly.body =
      [0, 4, 77, 81, 84, 84, 4, 2, 0, 60, 0, 5, 104, 101, 108, 108, 111]
      from rfl]
    rw [insert_remaining_length_small _ _ (by norm_num)]
    rfl
  · show Option.bind (insert_remaining_length
      (0b00010000 :: connectUserPassClean.body)) (fun l => l[9]?) = _
    rw [show connectUserPassClean.body =
      [0, 4, 77, 81, 84, 84, 4, 194, 0, 60, 0, 5, 104, 101, 108, 108, 111,
        0, 3, 65, 65, 65, 0, 3, 66, 66, 66] from rfl]
    rw [insert_remaining_length_small _ _ (by norm_num)]
    rfl
  · show Option.bind (insert_remaining_length
      (0b00010000 :: connectWillClean.body)) (fun l => l[9]?) = _
    rw [show connectWillClean.body =
      [0, 4, 77, 81, 84, 84, 4, 6, 0, 60, 0, 5, 104, 101, 108, 108, 111,
        0, 3, 97, 47, 98, 0, 5, 104, 101, 108, 108, 111] from rfl]
    rw [insert_remaining_length_small _ _ (by norm_num)]
    rfl

/-- Claim C10: every Connect built through the constructor has its will QoS
fixed to QoS 0 and will-retain fixed to false, whatever the arguments, so
bits 5, 4 and 3 of the serialized control-flag byte (mask 0b00111000) are
always zero, even when the will flag is set. -/
theorem c10_connect_new_fixes_will (gen : List Nat)
    (u pw cid : Option (List Nat)) (ka : Nat) (cs wf : Bool)
    (wt wm : Option (List Nat)) (p : ConnectPacket)
    (h : ConnectPacket.new gen u pw cid ka cs wf wt wm = some p) :
    p.qos = QoS.QoS0 ∧ p.will_retain = false ∧
    p.control_flag &&& 0b00111000 = 0 := by
  unfold ConnectPacket.new at h
  by_cases h1 : u = none ∧ pw ≠ none
  · rw [if_pos h1] at h
    exact absurd h (by simp)
  · rw [if_neg h1] at h
    by_cases h2 : wf ∧ (wt = none ∨ wm = none)
    · rw [if_pos h2] at h
      exact absurd h (by simp)
    · rw [if_neg h2] at h
      have h3 := Option.some.inj h
      rw [← h3]
      refine ⟨rfl, rfl, ?_⟩
      rw [control_flag_layout]
      exact bits_and_56 _ _ _ _ (Bool.toNat_le _) (Bool.toNat_le _)
        (Bool.toNat_le _) (Bool.toNat_le _)

/-- Concrete witness for C10: a constructor call with the will flag set
still yields will QoS 0, will-retain false, and zero bits 5-3. -/
theorem c10_connect_new_fixes_will_witness :
    ConnectPacket.new [104] none none none 60 true true (some [97])
      (some [98]) =
      some (ConnectPacket.mk [104] none none QoS.QoS0 false true true 60
        (some [97]) (some [98])) ∧
    (ConnectPacket.mk [104] none none QoS.QoS0 false true true 60
      (some [97]) (some [98])).qos = QoS.QoS0 ∧
    (ConnectPacket.mk [104] none none QoS.QoS0 false true true 60
      (some [97]) (some [98])).will_retain = false ∧
    (ConnectPacket.mk [104] none none QoS.QoS0 false true true 60
      (some [97]) (some [98])).control_flag &&& 0b00111000 = 0 := by
  refine ⟨rfl, ?_⟩
  exact c10_connect_new_fixes_will [104] none none none 60 true true
    (some [97]) (some [98]) _ rfl

end RustMqtt
